import Mathlib

/-!
A verification development for the xenith_trainer dataset-preparation and
search pipeline.  The Python sources under `trainer/` are shallowly embedded:
pure computations become Lean functions, filesystem and subprocess effects
become explicit state passing over a `World` record (an association-list
filesystem plus a log of external invocations), and fallible code returns
`Except PyError`.
-/

set_option autoImplicit false
set_option linter.unusedVariables false

deriving instance DecidableEq for Except

namespace XenithTrainer

/-- Python exception values raised by the embedded code, identified by their
Python class and the payload that matters to the claims. -/
inductive PyError where
  | nameError (name : String)
  | attributeError (attr : String)
  | typeError (msg : String)
  | valueError (msg : String)
  | runtimeError (msg : String)
  | fileNotFoundError (path : String)
  | keyError (key : String)
  | indexError (msg : String)
  deriving DecidableEq

/-- Literal (non-regex) substring replacement on character lists, mirroring
Python `str.replace`: scan left to right, replace each non-overlapping
occurrence of `pat`.  Structural recursion on a fuel argument so that the
kernel can evaluate it. -/
def replaceFuel (pat rep : List Char) : Nat → List Char → List Char
  | _, [] => []
  | 0, s => s
  | n + 1, c :: cs =>
    if pat ≠ [] ∧ pat.isPrefixOf (c :: cs) then
      rep ++ replaceFuel pat rep n ((c :: cs).drop pat.length)
    else
      c :: replaceFuel pat rep n cs

/-- Python `s.replace(pat, rep)` (literal substring replacement, all
occurrences, left to right). -/
def pyReplace (s pat rep : String) : String :=
  ⟨replaceFuel pat.data rep.data s.data.length s.data⟩

/-- Split a character list on a separator character, keeping empty pieces,
like Python `str.split(sep)` for a one-character separator. -/
def splitOnChar (sep : Char) : List Char → List (List Char)
  | [] => [[]]
  | c :: cs =>
    match splitOnChar sep cs with
    | [] => [[]]
    | piece :: rest =>
      if c = sep then [] :: piece :: rest else (c :: piece) :: rest

/-- The lines of a string, split on the newline character in Python
`str.split` fashion. -/
def pyLines (s : String) : List String :=
  (splitOnChar '\n' s.data).map String.mk

/-- The tab-separated fields of a string. -/
def pyTabFields (s : String) : List String :=
  (splitOnChar '\t' s.data).map String.mk

/-- Python `file.readline()` on a whole file content: the first line, keeping
its trailing newline when one is present. -/
def pyReadline (s : String) : String :=
  match pyLines s with
  | [] => ""
  | [l] => l
  | l :: _ :: _ => l ++ "\n"

/-- Python `os.path.join(a, b)` for a relative second component: the two
pieces joined with a path separator. -/
def osJoin (a b : String) : String := a ++ "/" ++ b

-- Filesystem and external-effect model ---------------------------------------

/-- The filesystem: an association list from paths to file contents (most
recent write first) plus the set of directories. -/
structure FS where
  files : List (String × String)
  dirs : List String
  deriving DecidableEq

/-- Content of a file, when present (`open` succeeds exactly when this is
`some`). -/
def FS.read (fs : FS) (p : String) : Option String := fs.files.lookup p

/-- Python `os.path.isfile`. -/
def FS.isfile (fs : FS) (p : String) : Bool := (fs.read p).isSome

/-- Python `os.path.isdir`. -/
def FS.isdir (fs : FS) (p : String) : Bool := fs.dirs.contains p

/-- Create or overwrite one file. -/
def FS.write (fs : FS) (p c : String) : FS := ⟨(p, c) :: fs.files, fs.dirs⟩

/-- Python `os.makedirs`. -/
def FS.makedirs (fs : FS) (p : String) : FS := ⟨fs.files, p :: fs.dirs⟩

/-- One element of a Python argv list as the sources build them.  The sources
place not only strings there but also, verbatim, an integer (`crux.py` line 30
puts `seed` in the list) and a whole list (`search/kojak.py` line 82 puts
`mzml_files` in the list); these are reproduced faithfully. -/
inductive Arg where
  | str (s : String)
  | int (n : Int)
  | strList (l : List String)
  deriving DecidableEq

/-- An external-process invocation or network fetch performed by the embedded
code.  External collaborators (crux, Kojak, ppx, xenith) are out of scope per
the spec and are recorded at their interface boundary. -/
inductive ExtCall where
  | subprocessRun (argv : List Arg)
  | ppxPXDataset (pxid : String)
  | xenithConvertKojak (kojakFile inter intra outFile : String) (toPin : Bool)
  deriving DecidableEq

/-- The world state threaded through the embedded code: the filesystem plus
the log of external invocations (most recent first). -/
structure World where
  fs : FS
  calls : List ExtCall
  deriving DecidableEq

/-- Record one external invocation. -/
def World.invoke (w : World) (c : ExtCall) : World := ⟨w.fs, c :: w.calls⟩

/-- Whether an argv element is a Python string. -/
def Arg.isStr : Arg → Bool
  | .str _ => true
  | _ => false

/-- The Python type name of an argv element, as it appears in the TypeError
message of `subprocess.run`. -/
def Arg.typeName : Arg → String
  | .str _ => "str"
  | .int _ => "int"
  | .strList _ => "list"

/-- Python `subprocess.run(cmd)`: every argv element must be a str (or bytes
or os.PathLike).  Argument conversion walks the list in order and raises
TypeError at the first element of any other type, before any process is
spawned — so nothing is recorded in the invocation log on that path.  When
every element is a string, the external process runs (opaque, recorded at
the interface boundary). -/
def pySubprocessRun (argv : List Arg) (w : World) : World × Except PyError Unit :=
  match argv.find? (fun a => ! a.isStr) with
  | none => (w.invoke (.subprocessRun argv), .ok ())
  | some bad =>
    (w, .error (.typeError
      ("expected str, bytes or os.PathLike object, not " ++ bad.typeName)))

-- trainer/config.py -----------------------------------------------------------

/-- `config.path` (config.py line 10): the data directory.  `os.getenv`
consults the environment; the embedded value is the default used when
DATAPATH is unset. -/
def configPath : String := "/scratch/xenith_trainer/data"

/-- `config.mods` (config.py lines 38 to 54): modification name to the Kojak
configuration text block. -/
def configMods : List (String × String) :=
  [("BS3", "cross_link = nK nK 138.0680742 BS3\n" ++
           "mono_link = nK 155.094629\n" ++
           "mono_link = nK 156.078644\n"),
   ("BS3-d4", "cross_link = nK nK 142.093187 BS3-d4\n" ++
              "mono_link = nK 159.119736\n" ++
              "mono_link = nK 160.103751\n"),
   ("BS3-d12", "cross_link = nK nK 150.14339515 BS3-d12\n" ++
               "mono_link = nK 167.16994995\n" ++
               "mono_link = nK 168.15396495\n")]

/-- `config.enzymes` (config.py lines 56 to 60): enzyme name to the
cut-after / cut-before residue pair. -/
def configEnzymes : List (String × (String × String)) :=
  [("Trypsin", ("KR", "")), ("GluC", ("DE", "")), ("Chymo", ("FWY", ""))]

-- trainer/search/kojak.py -----------------------------------------------------

namespace Kojak

/-- Module-level names bound in `trainer/search/kojak.py`: its two imports
(lines 4 and 6) and its three function definitions.  Neither `config` nor
`re`, both referenced inside `configure`, is among them. -/
def moduleNames : List String := ["subprocess", "xenith", "configure", "run", "_get_version"]

/-- Resolution of a global name inside `trainer/search/kojak.py`; an unbound
name raises Python NameError. -/
def globalName (n : String) : Except PyError Unit :=
  if moduleNames.contains n then .ok () else .error (.nameError n)

/-- Embedding of `configure` (search/kojak.py lines 9 to 54).

Line 43 evaluates `"\n".join(config.mods[mod]["kojak"] for mod in mods)`:
the join draws the first element from the generator, whose body resolves the
global name `config`; `kojak.py` never imports `config` (see `moduleNames`),
so a NameError is raised as soon as `mods` is non-empty (line 44 does the
same for `enzymes`).  When both sequences are empty, `join` never evaluates
the generator body, lines 46 and 47 open and read the template, and the call
`base_file.reas()` raises AttributeError because file objects have `read`,
not `reas`.  The registry lookups `config.mods[mod]` and the `re.sub`
substitutions of lines 49 to 51 are therefore never reached on any input.
The tolerance scalars `pre_tol` and `frag_bin` are modelled as their decimal
string tokens, since the source only ever formats them with `str`. -/
def configure (fasta preTol fragBin : String) (mods enzymes : List String)
    (template : String) (w : World) : World × Except PyError String :=
  match (if mods.isEmpty then .ok () else globalName "config" : Except PyError Unit) with
  | .error e => (w, .error e)
  | .ok _ =>
    match (if enzymes.isEmpty then .ok () else globalName "config" : Except PyError Unit) with
    | .error e => (w, .error e)
    | .ok _ =>
      match w.fs.read template with
      | none => (w, .error (.fileNotFoundError template))
      | some _ => (w, .error (.attributeError "reas"))

/-- Embedding of `_get_version` (search/kojak.py lines 101 to 108): read the
first line of the primary result file and strip the literal prefix. -/
def getVersion (fs : FS) (kojakTxt : String) : Except PyError String :=
  match fs.read kojakTxt with
  | none => .error (.fileNotFoundError kojakTxt)
  | some content => .ok (pyReplace (pyReadline content) "Kojak version " "")

/-- External collaborator `xenith.convert.kojak`, modelled at its interface
boundary (the spec treats result-format conversion as a pure, deterministic
function of the raw triple and the version tag that writes one output file;
it reads all three raw files). -/
def xenithConvert (w : World) (kojakFile inter intra outFile version : String)
    (toPin : Bool) : World × Except PyError Unit :=
  let w := w.invoke (.xenithConvertKojak kojakFile inter intra outFile toPin)
  match w.fs.read kojakFile, w.fs.read inter, w.fs.read intra with
  | some k, some i1, some i2 =>
    ({ w with
       fs := w.fs.write outFile
         ("xenith-normalized:" ++ version ++ ":" ++ (if toPin then "pin:" else "txt:")
           ++ k ++ i1 ++ i2) }, .ok ())
  | none, _, _ => (w, .error (.fileNotFoundError kojakFile))
  | _, none, _ => (w, .error (.fileNotFoundError inter))
  | _, _, none => (w, .error (.fileNotFoundError intra))

/-- Embedding of `run` (search/kojak.py lines 57 to 98).

Line 81 derives the per-input base names.  Line 82 builds the argv
`[kojak_bin, conf_file, mzml_files]` — its third element is the whole
`mzml_files` list (reproduced as `Arg.strList`) — and line 83 passes it to
`subprocess.run`, which raises TypeError on the list-valued element before
the engine ever runs, so on every input the function aborts here and the
rest of the body is dead code.  That remainder is embedded faithfully all
the same: the loop of lines 85 to 98 executes its `return` statement
(line 98) during the first iteration, so only the head of `file_base` would
be processed; with an empty input list the loop body never runs and the
function returns Python None, embedded as `Option.none`; and nothing in the
body checks that the expected output files exist — the only file the
function itself would open is the primary result file of the first input,
inside `_get_version`. -/
def run (mzmlFiles : List String) (confFile outFileArg kojakBin : String)
    (w : World) : World × Except PyError (Option (String × String)) :=
  let fileBase := mzmlFiles.map (fun f => pyReplace f ".mzML.gz" "")
  match pySubprocessRun [.str kojakBin, .str confFile, .strList mzmlFiles] w with
  | (w, .error e) => (w, .error e)
  | (w, .ok _) =>
    match fileBase with
    | [] => (w, .ok none)
    | base :: _ =>
      let intra := base ++ ".perc.intra.txt"
      let inter := base ++ ".perc.inter.txt"
      let kojakTxt := base ++ ".kojak.txt"
      match getVersion w.fs kojakTxt with
      | .error e => (w, .error e)
      | .ok version =>
        let outFile := base ++ "_kojak-" ++ version ++ ".xenith.txt"
        let outPin := base ++ "_kojak-" ++ version ++ ".pin"
        match xenithConvert w kojakTxt inter intra outFile version false with
        | (w, .error e) => (w, .error e)
        | (w, .ok _) =>
          match xenithConvert w kojakTxt inter intra outPin version true with
          | (w, .error e) => (w, .error e)
          | (w, .ok _) => (w, .ok (some (outFile, outPin)))

end Kojak

-- trainer/crux.py -------------------------------------------------------------

namespace Crux

/-- Embedding of `make_decoys` (crux.py lines 12 to 39), called with all of
its parameters supplied.  The scratch directory created by
`tempfile.TemporaryDirectory` is modelled as a fixed fresh path.  The argv of
lines 29 and 30 places the integer `seed` directly in the list (reproduced
as `Arg.int`), so `subprocess.run` at line 32 raises TypeError before any
process is spawned and before `open(out_file)` at line 35 ever runs: the
function aborts on every input with the destination untouched.  The rest of
the body is embedded faithfully as dead code: line 33 names the decoy file
the invocation was expected to leave in the scratch directory; opening the
destination for writing (line 35) would create or truncate it immediately,
before the target bytes (lines 36 to 37) and then the decoy bytes (lines 38
to 39) are appended, so on success the destination would be the
byte-concatenation of the target file followed by the decoy file. -/
def makeDecoys (fasta outFile : String) (enzyme : String × String) (seed : Int)
    (w : World) : World × Except PyError Unit :=
  let enz := "[" ++ enzyme.1 ++ "]|[" ++ enzyme.2 ++ "]"
  let tmpdir := "/tmp/xenith-scratch"
  match pySubprocessRun
      [.str "crux", .str "generate-peptides", .str "--output-dir", .str tmpdir,
       .str "--custom-enzyme", .str enz, .str "--seed", .int seed, .str fasta] w with
  | (w, .error e) => (w, .error e)
  | (w, .ok _) =>
    let res := osJoin tmpdir "generate-peptides, proteins.decoy.txt"
    let w : World := { w with fs := w.fs.write outFile "" }
    match w.fs.read fasta with
    | none => (w, .error (.fileNotFoundError fasta))
    | some targets =>
      let w : World := { w with fs := w.fs.write outFile targets }
      match w.fs.read res with
      | none => (w, .error (.fileNotFoundError res))
      | some decoys => ({ w with fs := w.fs.write outFile (targets ++ decoys) }, .ok ())

/-- Embedding of `param_medic` (crux.py lines 42 to 68): one external
invocation pooling every converted-spectra file of the dataset.  Every argv
element here is a string, so the invocation goes through. -/
def paramMedic (mzmlFiles : List String) (pxid dataDir : String) (w : World) :
    World × Except PyError Unit :=
  let charges := "0,2,3,4,5,6,7,8,9"
  let outDir := osJoin dataDir "pm-out"
  pySubprocessRun
    (([ "crux", "param-medic", "--pm-chargets", charges, "--fileroot", pxid,
        "--output-dir", outDir, "--pm-top-n-frag-peaks", "60",
        "--pm-min-peak-pairs", "140"].map Arg.str) ++ mzmlFiles.map Arg.str) w

end Crux

-- trainer/datasets.py ---------------------------------------------------------

/-- The Python value of the `fasta` parameter of `XLDataset`: a plain string
(a file name or a proteome identifier) or a list of protein accessions. -/
inductive FastaArg where
  | str (s : String)
  | list (l : List String)
  deriving DecidableEq

/-- A dataset configuration record, as passed to `XLDataset` (datasets.py
lines 123 to 132), with the default arguments of the source. -/
structure XLDatasetCfg where
  pxid : String
  raw_files : List String
  fasta : FastaArg
  fasta_type : String := "fasta"
  mods : List String := ["BS3"]
  enzymes : List String := ["Trypsin"]
  split : String := "training"
  precursor_tol : Option String := none
  fragment_bin_width : Option String := none
  deriving DecidableEq

/-- The dataset root directory (datasets.py line 144). -/
def XLDatasetCfg.dsPath (cfg : XLDatasetCfg) : String :=
  osJoin (osJoin configPath cfg.split) cfg.pxid

/-- The resolved database file path (datasets.py line 151). -/
def XLDatasetCfg.fastaPath (cfg : XLDatasetCfg) : String :=
  osJoin cfg.dsPath (cfg.pxid ++ ".fasta")

/-- The parameter-estimation result file path (datasets.py lines 203 to 204). -/
def XLDatasetCfg.pmPath (cfg : XLDatasetCfg) : String :=
  osJoin (osJoin cfg.dsPath "pm-out") (cfg.pxid ++ ".param-medic.txt")

/-- A constructed `XLDataset` object: its stored attributes after `__init__`.
The tolerance scalars are modelled as decimal string tokens (the source only
ever formats them). -/
structure XLDataset where
  pxid : String
  raw_files : List String
  mods : List String
  enzymes : List String
  split : String
  precursor_tol : Option String
  fragment_bin_width : Option String
  path : String
  fasta_file : String
  mzml_files : List String
  deriving DecidableEq

/-- Embedding of `XLDataset._download_fasta` (datasets.py lines 171 to 197).

Inside the method the name `fasta` is the str-or-list parameter, not the
`fasta` module (`datasets.py` never imports that module), so each branch
performs an attribute lookup on a plain string or list value and raises
AttributeError: line 188 looks up `download_from_pride`, line 191
`download_proteins`, line 194 `download_proteome`.  For any other
`fasta_type` the branches are skipped and line 197 calls
`crux.make_decoys(fasta, self.fasta_file, seed=1)`, which omits the required
positional parameter `enzyme` of `make_decoys` and raises TypeError.  Every
path therefore raises before any file is produced. -/
def XLDataset.downloadFasta (fasta : FastaArg) (fastaType : String)
    (path fastaFile : String) (w : World) : World × Except PyError Unit :=
  if fastaType = "fasta" then (w, .error (.attributeError "download_from_pride"))
  else if fastaType = "proteins" then (w, .error (.attributeError "download_proteins"))
  else if fastaType = "proteome" then (w, .error (.attributeError "download_proteome"))
  else (w, .error (.typeError
    "make_decoys() missing 1 required positional argument: enzyme"))

/-- Embedding of `XLDataset.__init__` (datasets.py lines 123 to 169): create
the root directory when absent (lines 145 to 146); when the database file is
absent, construct the `ppx.PXDataset` handle (line 154, an external network
fetch, recorded) and delegate to `_download_fasta` (line 155); then derive
the converted-spectra names (lines 161 to 163) by the literal replacement
`f.replace(".raw$", ".mzML.gz")` — `str.replace` is not a regex substitution,
so the pattern `.raw$` (with the dollar character) does not occur in ordinary
raw file names and the name is left unchanged.  The final `_mzml_exist` check
(lines 165 to 169) only logs.  The `isinstance` coercion of a lone string to
a one-element tuple (lines 158 to 159) is modelled by the configuration
already carrying a list. -/
def XLDataset.init (cfg : XLDatasetCfg) (w : World) : World × Except PyError XLDataset :=
  let path := cfg.dsPath
  let w := if w.fs.isdir path then w else { w with fs := w.fs.makedirs path }
  let fastaFile := osJoin path (cfg.pxid ++ ".fasta")
  let step : World × Except PyError Unit :=
    if w.fs.isfile fastaFile then (w, .ok ())
    else XLDataset.downloadFasta cfg.fasta cfg.fasta_type path fastaFile
      (w.invoke (.ppxPXDataset cfg.pxid))
  match step with
  | (w, .error e) => (w, .error e)
  | (w, .ok _) =>
    (w, .ok { pxid := cfg.pxid, raw_files := cfg.raw_files, mods := cfg.mods,
              enzymes := cfg.enzymes, split := cfg.split,
              precursor_tol := cfg.precursor_tol,
              fragment_bin_width := cfg.fragment_bin_width,
              path := path, fasta_file := fastaFile,
              mzml_files := cfg.raw_files.map
                (fun f => osJoin path (pyReplace f ".raw$" ".mzML.gz")) })

/-- Embedding of `XLDataset._mzml_exist` (datasets.py lines 244 to 245):
every converted-spectra file is present. -/
def XLDataset.mzmlExist (ds : XLDataset) (fs : FS) : Bool :=
  ds.mzml_files.all fs.isfile

/-- Reading one named column of the first row of a tab-separated table, as
`pandas.read_csv` followed by attribute access and row indexing behaves on
the param-medic output: a missing column or a missing first row raises. -/
def pdReadCsvField (content col : String) : Except PyError String :=
  match pyLines content with
  | [] => .error (.valueError "No columns to parse from file")
  | header :: rows =>
    match (pyTabFields header).findIdx? (fun c => c = col) with
    | none => .error (.attributeError col)
    | some i =>
      match rows with
      | [] => .error (.keyError "0")
      | r :: _ =>
        match (pyTabFields r).get? i with
        | none => .error (.keyError "0")
        | some v => .ok v

/-- Embedding of `XLDataset.run_param_medic` (datasets.py lines 199 to 211):
the external estimator is invoked only when its result file is absent
(lines 206 to 207); the result file is then parsed and the two scalars are
stored on the dataset (the embedding returns the updated dataset in place of
the mutation of `self`).  Note the source reads the misspelled column name
`fragement_prediction_th` (line 211). -/
def XLDataset.runParamMedic (ds : XLDataset) (w : World) :
    World × Except PyError XLDataset :=
  let pmFile := osJoin (osJoin ds.path "pm-out") (ds.pxid ++ ".param-medic.txt")
  let step : World × Except PyError Unit :=
    if w.fs.isfile pmFile then (w, .ok ())
    else Crux.paramMedic ds.mzml_files ds.pxid ds.path w
  match step with
  | (w, .error e) => (w, .error e)
  | (w, .ok _) =>
    match w.fs.read pmFile with
    | none => (w, .error (.fileNotFoundError pmFile))
    | some content =>
      match pdReadCsvField content "precursor_prediction_ppm" with
      | .error e => (w, .error e)
      | .ok pre =>
        match pdReadCsvField content "fragement_prediction_th" with
        | .error e => (w, .error e)
        | .ok frag =>
          (w, .ok { ds with precursor_tol := some pre, fragment_bin_width := some frag })

/-- Whether the converted-spectra gate of `XLDataset.search` can fire.
Line 230 reads `if not self._mzml_exist:` with no call parentheses: the
condition tests the truthiness of the bound method object itself, which is
always true in Python, so the negation is constantly false and the branch
raising `RuntimeError("mzML files do not exist.")` is dead code. -/
def mzmlGateFires : Bool := false

/-- Embedding of `XLDataset.search` (datasets.py lines 214 to 241), with
`kwargs` carrying the names of the keyword arguments supplied by the caller.
After the (dead, see `mzmlGateFires`) conversion gate, the database-file
check (lines 233 to 234) and the tolerance check (lines 236 to 238) run, and
line 241 calls `kojak.run(self, **kwargs)`: `run` requires the four
positional parameters `mzml_files`, `conf_file`, `out_file` and `kojak_bin`,
and only one positional argument (the dataset object, bound to `mzml_files`)
is given, so the call raises TypeError unless the remaining three arrive as
keywords — in which case `file_base` iterates over the dataset object bound
to `mzml_files`, which is not iterable, and TypeError is raised in the body.
The function never assigns to `self` and, for engines other than kojak,
falls through and returns Python None. -/
def XLDataset.search (ds : XLDataset) (engine : String) (kwargs : List String)
    (w : World) : World × Except PyError Unit :=
  if mzmlGateFires then (w, .error (.runtimeError "mzML files do not exist."))
  else if w.fs.isfile ds.fasta_file then
    if ds.precursor_tol = none ∨ ds.fragment_bin_width = none then
      (w, .error (.runtimeError
        "No precursor tolerance or fragment bin width were specified."))
    else if engine = "kojak" then
      if kwargs.contains "conf_file" ∧ kwargs.contains "out_file" ∧
          kwargs.contains "kojak_bin" then
        (w, .error (.typeError "XLDataset object is not iterable"))
      else
        (w, .error (.typeError
          "run() missing required positional arguments: conf_file, out_file, kojak_bin"))
    else (w, .ok ())
  else (w, .error (.runtimeError "FASTA file does not exist."))

/-- The three dataset partitions of `TrainerDatasets` (datasets.py lines 24
to 45). -/
structure TrainerDatasets where
  training : List XLDataset
  validation : List XLDataset
  test : List XLDataset
  deriving DecidableEq

/-- Embedding of `TrainerDatasets.add_dataset` (datasets.py lines 47 to 59):
the dataset object is constructed first — with all of the construction side
effects of `XLDataset.__init__` — and only then is the partition tag
inspected; an unrecognized tag raises ValueError.  The message of the source
concatenates an f-string with a plain string, so the braces in the second
fragment are literal (the dataset identifier is not interpolated); the
embedded message drops the quote characters of the source around the word
split. -/
def TrainerDatasets.addDataset (t : TrainerDatasets) (cfg : XLDatasetCfg)
    (w : World) : World × Except PyError TrainerDatasets :=
  match XLDataset.init cfg w with
  | (w, .error e) => (w, .error e)
  | (w, .ok ds) =>
    if ds.split = "training" then (w, .ok { t with training := t.training ++ [ds] })
    else if ds.split = "validation" then
      (w, .ok { t with validation := t.validation ++ [ds] })
    else if ds.split = "test" then (w, .ok { t with test := t.test ++ [ds] })
    else (w, .error (.valueError "Unknown value for split in \x7bdataset.pxid\x7d."))

-- Spec-side definition for the converted-spectra naming convention ------------

/-- Modelled from the spec: the converted-spectra file naming convention of
the external-interface section — each raw file name maps to a converted file
name by replacing its raw extension with the fixed compressed-intermediate
extension `.mzML.gz`.  Stated here only for comparison with the mapping the
source actually computes. -/
def specConvertedName (raw : String) : String :=
  String.mk (List.intercalate ['.'] ((splitOnChar '.' raw.data).dropLast)) ++ ".mzML.gz"

-- Concrete fixtures -----------------------------------------------------------

/-- A world with an empty filesystem and no recorded invocations. -/
def emptyWorld : World := ⟨⟨[], []⟩, []⟩

/-- Dataset PXD003282 of the training catalog (config.py lines 84 to 89). -/
def pxd003282 : XLDatasetCfg :=
  { pxid := "PXD003282",
    raw_files := ["Sheppard_Werner_RNAPORF145_07.raw"],
    fasta := .list ["P95989", "P95989", "Q980Z8", "P58192", "Q97ZX7", "Q980R2",
                    "P96036", "Q980K0", "Q980R1", "Q97ZJ9", "Q980A3", "Q7LXK4"],
    fasta_type := "proteins" }

/-- A world holding a Kojak configuration template. -/
def kojakTemplateWorld : World :=
  ⟨⟨[("templates/kojak_2.0.0-dev.conf",
      "database = $database$\nfragment_bin_size = $fragbin$\nppm_tolerance_pre = $pretol$\n")],
    []⟩, []⟩

-- C2 --------------------------------------------------------------------------

/-- Claim C2 (code bug): the claim says database assembly produces, for a
target FASTA with N records, an on-disk database of the N target records
followed by N decoys, reproducibly.  Evaluating the embedded code at a
concrete catalog dataset (PXD003282, source kind `proteins`) on an empty
filesystem shows assembly never gets that far: `_download_fasta` performs
attribute lookup `download_proteins` on its own list argument (the `fasta`
module is never imported by datasets.py) and raises AttributeError, the
construction aborts, and no database file is produced — only the freshly
created root directory and the `ppx` handle fetch remain. -/
theorem c2_database_assembly_crashes :
    XLDataset.init pxd003282 emptyWorld =
      ({ fs := ⟨[], ["/scratch/xenith_trainer/data/training/PXD003282"]⟩,
         calls := [.ppxPXDataset "PXD003282"] },
       .error (.attributeError "download_proteins")) ∧
    (XLDataset.init pxd003282 emptyWorld).1.fs.isfile pxd003282.fastaPath = false :=
  ⟨rfl, rfl⟩

-- C3 --------------------------------------------------------------------------

/-- Claim C3 (code bug): the claim says `configure` substitutes the three
template placeholders exactly once and renders one block per requested
modification and enzyme, in order.  Evaluating the embedded code at a fully
valid input (every requested name present in its registry, template with all
three placeholders on disk) shows `configure` instead raises
NameError: the module never imports `config`, so the very first
registry access fails; the rendering described by the claim is unreachable
(and even with empty name sets the call `base_file.reas()` would raise
AttributeError). -/
theorem c3_configure_always_raises :
    Kojak.configure "db.fasta" "10.0" "0.03" ["BS3", "BS3-d12"] ["Trypsin", "Chymo"]
      "templates/kojak_2.0.0-dev.conf" kojakTemplateWorld =
      (kojakTemplateWorld, .error (.nameError "config")) ∧
    configMods.lookup "BS3" ≠ none ∧ configMods.lookup "BS3-d12" ≠ none ∧
    configEnzymes.lookup "Trypsin" ≠ none ∧ configEnzymes.lookup "Chymo" ≠ none := by
  refine ⟨rfl, ?_, ?_, ?_, ?_⟩ <;> decide

-- C7 --------------------------------------------------------------------------

/-- Claim C7 (code bug): the claim says `configure` fails with
ConfigurationError for any name absent from its registry.  The embedded code
raises the same NameError for an unknown modification, for an unknown
enzyme, and for fully valid names alike (the `config` registries are never
reached because the module is not imported), so unknown names are never
distinguished from known ones by any registry lookup. -/
theorem c7_unknown_names_not_distinguished :
    Kojak.configure "db.fasta" "10.0" "0.03" ["DSSO"] ["Trypsin"]
      "templates/kojak_2.0.0-dev.conf" kojakTemplateWorld =
      (kojakTemplateWorld, .error (.nameError "config")) ∧
    Kojak.configure "db.fasta" "10.0" "0.03" ["BS3"] ["LysC"]
      "templates/kojak_2.0.0-dev.conf" kojakTemplateWorld =
      (kojakTemplateWorld, .error (.nameError "config")) ∧
    Kojak.configure "db.fasta" "10.0" "0.03" ["BS3"] ["Trypsin"]
      "templates/kojak_2.0.0-dev.conf" kojakTemplateWorld =
      (kojakTemplateWorld, .error (.nameError "config")) ∧
    configMods.lookup "DSSO" = none ∧ configEnzymes.lookup "LysC" = none := by
  refine ⟨rfl, rfl, rfl, ?_, ?_⟩ <;> decide

-- C6 --------------------------------------------------------------------------

/-- Root directory of the validation dataset used in the C6 scenario. -/
def c6path : String := "/scratch/xenith_trainer/data/validation/PXD012723"

/-- A constructed validation dataset (PXD012723, config.py lines 165 to 170)
with both tolerances set and two expected converted-spectra files. -/
def c6ds : XLDataset :=
  { pxid := "PXD012723",
    raw_files := ["P2CH20181009_MU10.raw", "P2CH20181009_MU8.raw"],
    mods := ["BS3"], enzymes := ["Trypsin"], split := "validation",
    precursor_tol := some "10.0", fragment_bin_width := some "0.02",
    path := c6path, fasta_file := osJoin c6path "PXD012723.fasta",
    mzml_files := [osJoin c6path "P2CH20181009_MU10.raw",
                   osJoin c6path "P2CH20181009_MU8.raw"] }

/-- A world where the database file and the first converted-spectra file of
`c6ds` exist but the second converted-spectra file is absent. -/
def c6world : World :=
  ⟨⟨[(osJoin c6path "PXD012723.fasta", ">target\nPEPTIDE\n"),
     (osJoin c6path "P2CH20181009_MU10.raw", "spectra-bytes")], [c6path]⟩, []⟩

/-- Claim C6 (code bug): the claim says a dataset with at least one converted
file absent is wholly blocked at the conversion stage and the engine
invocation is never reached.  In the embedded code the conversion gate never
fires (`if not self._mzml_exist:` tests the bound method object, not its
call — see `mzmlGateFires`), so a dataset with a missing converted file and
tolerances set sails past the gate to the engine dispatch, where the call of
`kojak.run(self)` fails for an unrelated reason (missing required
arguments); the conversion-stage error is dead code. -/
theorem c6_conversion_gate_never_fires :
    XLDataset.mzmlExist c6ds c6world.fs = false ∧
    mzmlGateFires = false ∧
    c6ds.search "kojak" [] c6world =
      (c6world, .error (.typeError
        "run() missing required positional arguments: conf_file, out_file, kojak_bin")) ∧
    PyError.typeError
        "run() missing required positional arguments: conf_file, out_file, kojak_bin" ≠
      PyError.runtimeError "mzML files do not exist." := by
  refine ⟨rfl, rfl, rfl, ?_⟩
  decide

-- C8 --------------------------------------------------------------------------

/-- A world where the root directory and database file of `pxd003282` already
exist, so that construction succeeds and derives the converted-spectra
names. -/
def c8world : World :=
  ⟨⟨[("/scratch/xenith_trainer/data/training/PXD003282/PXD003282.fasta", ">t\nSEQ\n")],
    ["/scratch/xenith_trainer/data/training/PXD003282"]⟩, []⟩

/-- Claim C8 (code bug): the claim says each raw file name maps to the
converted name by replacing the raw extension with `.mzML.gz`.  The source
computes `f.replace(".raw$", ".mzML.gz")` with the literal (non-regex)
`str.replace`, and the pattern `.raw$` does not occur in an ordinary raw
file name, so the derived converted name keeps the `.raw` extension
unchanged and differs from the spec mapping; the equal-length, same-order
part of the claim does hold (one converted name per raw file, by `map`). -/
theorem c8_converted_name_keeps_raw_extension :
    (∃ ds, XLDataset.init pxd003282 c8world = (c8world, .ok ds) ∧
      ds.mzml_files =
        ["/scratch/xenith_trainer/data/training/PXD003282/Sheppard_Werner_RNAPORF145_07.raw"] ∧
      ds.mzml_files.length = ds.raw_files.length) ∧
    pyReplace "Sheppard_Werner_RNAPORF145_07.raw" ".raw$" ".mzML.gz" =
      "Sheppard_Werner_RNAPORF145_07.raw" ∧
    specConvertedName "Sheppard_Werner_RNAPORF145_07.raw" =
      "Sheppard_Werner_RNAPORF145_07.mzML.gz" ∧
    ("Sheppard_Werner_RNAPORF145_07.raw" : String) ≠
      "Sheppard_Werner_RNAPORF145_07.mzML.gz" := by
  refine ⟨⟨_, rfl, rfl, rfl⟩, rfl, rfl, ?_⟩
  decide

-- C4 --------------------------------------------------------------------------

/-- Root directory of the training dataset used in the C4 scenario. -/
def c4path : String := "/scratch/xenith_trainer/data/training/PXD001675"

/-- A constructed training dataset (PXD001675, config.py lines 96 to 101)
whose tolerances have not been estimated yet. -/
def c4ds : XLDataset :=
  { pxid := "PXD001675",
    raw_files := ["Chen_Rappsilber_QCLMS_xC3d0C3bd4_III.raw"],
    mods := ["BS3", "BS3-d4"], enzymes := ["Trypsin"], split := "training",
    precursor_tol := none, fragment_bin_width := none,
    path := c4path, fasta_file := osJoin c4path "PXD001675.fasta",
    mzml_files := [osJoin c4path "Chen_Rappsilber_QCLMS_xC3d0C3bd4_III.raw"] }

/-- A world where the database file of `c4ds` is absent. -/
def c4worldNoDb : World := ⟨⟨[], [c4path]⟩, []⟩

/-- A world where the database file of `c4ds` is present. -/
def c4worldDb : World :=
  ⟨⟨[(osJoin c4path "PXD001675.fasta", ">t\nSEQ\n")], [c4path]⟩, []⟩

/-- Claim C4 (counterexample): a dataset whose tolerances are unset but whose
database file is also absent fails with the database-missing error, not with
the tolerance configuration error the claim requires for every dataset with
unset tolerances. -/
theorem c4_counterexample :
    c4ds.precursor_tol = none ∧
    c4ds.search "kojak" [] c4worldNoDb =
      (c4worldNoDb, .error (.runtimeError "FASTA file does not exist.")) ∧
    PyError.runtimeError "FASTA file does not exist." ≠
      PyError.runtimeError
        "No precursor tolerance or fragment bin width were specified." := by
  refine ⟨rfl, rfl, ?_⟩
  decide

/-- Claim C4 (amended): for every dataset with either tolerance unset whose
database file is present on disk, requesting a search fails with the
tolerance error (the failure the spec taxonomy calls ConfigurationError; the
source raises RuntimeError) and leaves the world — filesystem artifacts and
invocation log — unchanged; the embedded `search` takes the dataset by value
and returns none, mirroring that the source never assigns to `self`, so the
recorded attributes are unchanged as well and a retry resumes from the same
state. -/
theorem c4_search_unset_tolerance (ds : XLDataset) (engine : String)
    (kwargs : List String) (w : World)
    (hdb : w.fs.isfile ds.fasta_file = true)
    (htol : ds.precursor_tol = none ∨ ds.fragment_bin_width = none) :
    ds.search engine kwargs w =
      (w, .error (.runtimeError
        "No precursor tolerance or fragment bin width were specified.")) := by
  unfold XLDataset.search mzmlGateFires
  simp [hdb, htol]

/-- Witness for `c4_search_unset_tolerance` at a concrete dataset and world. -/
theorem c4_search_unset_tolerance_witness :
    (c4worldDb.fs.isfile c4ds.fasta_file = true ∧
      (c4ds.precursor_tol = none ∨ c4ds.fragment_bin_width = none)) ∧
    c4ds.search "kojak" [] c4worldDb =
      (c4worldDb, .error (.runtimeError
        "No precursor tolerance or fragment bin width were specified.")) :=
  ⟨⟨by decide, Or.inl rfl⟩,
   c4_search_unset_tolerance c4ds "kojak" [] c4worldDb (by decide) (Or.inl rfl)⟩

-- C5 and C9 -------------------------------------------------------------------

/-- A world holding a complete output triple for the input base name `a`
(primary result with the engine version line, intra subset, inter subset)
and nothing for any other input. -/
def kojakOutputsWorld : World :=
  ⟨⟨[("a.kojak.txt", "Kojak version 2.0.0-dev"),
     ("a.perc.inter.txt", "inter-rows"),
     ("a.perc.intra.txt", "intra-rows")], []⟩, []⟩

/-- Claim C5 (code bug): the claim says a missing member of any expected
per-input output triple makes `run` fail with SearchExecutionError and
produce no normalized outputs.  The embedded code shows `run` never reaches
any output check on any input whatsoever: the argv built at kojak.py line 82
carries the whole `mzml_files` list as one element, so `subprocess.run` at
line 83 raises TypeError before the engine is invoked — contradicting the
docstring of `run`, which promises the converted result paths (and
`crux.param_medic` in the same codebase builds `cmd + mzml_files` correctly)
— and the world is returned unchanged: no engine invocation is recorded, no
output file is examined, no normalized output is produced, and no
SearchExecutionError or triple-completeness check exists anywhere in the
body. -/
theorem c5_run_typeerror_before_output_checks (mzmlFiles : List String)
    (conf outp bin : String) (w : World) :
    Kojak.run mzmlFiles conf outp bin w =
      (w, .error (.typeError "expected str, bytes or os.PathLike object, not list")) :=
  rfl

/-- Claim C9 (counterexample): at a concrete search over two inputs whose
first input has its complete output triple on disk, `run` raises the argv
TypeError with the world unchanged and returns no normalized pair at all,
refuting the claim that it normalizes and returns the first input pair. -/
theorem c9_counterexample :
    Kojak.run ["a.mzML.gz", "b.mzML.gz"] "kojak.conf" "out" "kojak-bin"
        kojakOutputsWorld =
      (kojakOutputsWorld,
       .error (.typeError "expected str, bytes or os.PathLike object, not list")) ∧
    (Kojak.run ["a.mzML.gz", "b.mzML.gz"] "kojak.conf" "out" "kojak-bin"
        kojakOutputsWorld).2 ≠
      .ok (some ("a_kojak-2.0.0-dev.xenith.txt", "a_kojak-2.0.0-dev.pin")) := by
  refine ⟨rfl, ?_⟩
  decide

/-- Claim C9 (amended): for every search run, whatever the inputs, the
engine invocation itself raises TypeError (the argv of kojak.py line 82
carries the `mzml_files` list as a single element, and `subprocess.run`
rejects it during argument conversion) before the per-input loop runs, so
`run` returns no result pair and normalization is never invoked for any
input — neither for the first nor for any subsequent one: the invocation
log and the filesystem are unchanged. -/
theorem c9_run_never_normalizes (mzmlFiles : List String)
    (conf outp bin : String) (w : World) :
    (Kojak.run mzmlFiles conf outp bin w).2 =
      .error (.typeError "expected str, bytes or os.PathLike object, not list") ∧
    (Kojak.run mzmlFiles conf outp bin w).1.calls = w.calls ∧
    (Kojak.run mzmlFiles conf outp bin w).1.fs = w.fs :=
  ⟨rfl, rfl, rfl⟩

-- C1 --------------------------------------------------------------------------

/-- Helper: when the root directory and the database file already exist,
construction performs no filesystem change and no external invocation, and
returns the dataset record with its derived paths. -/
theorem init_skips_when_artifacts_exist (cfg : XLDatasetCfg) (w : World)
    (hdir : w.fs.isdir cfg.dsPath = true)
    (hdb : w.fs.isfile cfg.fastaPath = true) :
    XLDataset.init cfg w =
      (w, .ok { pxid := cfg.pxid, raw_files := cfg.raw_files, mods := cfg.mods,
                enzymes := cfg.enzymes, split := cfg.split,
                precursor_tol := cfg.precursor_tol,
                fragment_bin_width := cfg.fragment_bin_width,
                path := cfg.dsPath, fasta_file := cfg.fastaPath,
                mzml_files := cfg.raw_files.map
                  (fun f => osJoin cfg.dsPath (pyReplace f ".raw$" ".mzML.gz")) }) := by
  unfold XLDataset.init
  simp only [XLDatasetCfg.fastaPath] at hdb
  simp [hdir, hdb, XLDatasetCfg.fastaPath]

/-- Helper: when the param-medic result file already exists, the estimator
stage performs no external invocation and no filesystem change, whatever the
outcome of parsing the result file. -/
theorem runParamMedic_skips_when_result_exists (ds : XLDataset) (w : World)
    (hpm : w.fs.isfile
      (osJoin (osJoin ds.path "pm-out") (ds.pxid ++ ".param-medic.txt")) = true) :
    (ds.runParamMedic w).1 = w := by
  obtain ⟨c, hc⟩ : ∃ c, w.fs.read
      (osJoin (osJoin ds.path "pm-out") (ds.pxid ++ ".param-medic.txt")) = some c := by
    rcases hr : w.fs.read
        (osJoin (osJoin ds.path "pm-out") (ds.pxid ++ ".param-medic.txt")) with _ | c
    · rw [FS.isfile, hr] at hpm
      simp at hpm
    · exact ⟨c, rfl⟩
  unfold XLDataset.runParamMedic
  simp only [hpm, if_true, hc]
  rcases pdReadCsvField c "precursor_prediction_ppm" with e | pre
  · rfl
  · rcases pdReadCsvField c "fragement_prediction_th" with e | frag <;> rfl

/-- Claim C1 (confirmed): for every dataset whose persisted artifacts (root
directory, target-decoy database file, param-medic result file) already
exist on disk, re-running the per-dataset pipeline performs zero external
invocations — in particular FASTA acquisition with decoy assembly, gated on
the database file (datasets.py line 152), and the parameter estimator, gated
on its result file (line 206), do not run — and the filesystem is unchanged,
so a second run leaves every artifact byte-identical. -/
theorem c1_rerun_performs_no_invocations (cfg : XLDatasetCfg) (w : World)
    (hdir : w.fs.isdir cfg.dsPath = true)
    (hdb : w.fs.isfile cfg.fastaPath = true)
    (hpm : w.fs.isfile cfg.pmPath = true) :
    ∃ ds : XLDataset, XLDataset.init cfg w = (w, .ok ds) ∧
      (ds.runParamMedic w).1 = w := by
  refine ⟨_, init_skips_when_artifacts_exist cfg w hdir hdb,
    runParamMedic_skips_when_result_exists _ w ?_⟩
  simpa [XLDatasetCfg.pmPath] using hpm

/-- A validation-catalog configuration (PXD002987, config.py lines 179 to
184) used as the concrete instance for the C1 witness. -/
def c1cfg : XLDatasetCfg :=
  { pxid := "PXD002987",
    raw_files := ["xlink_PRPS1_rep1.raw", "xlink_PRPS1_rep2.raw"],
    fasta := .list ["P60891"], fasta_type := "proteins", split := "validation" }

/-- A world where every persisted artifact of `c1cfg` already exists. -/
def c1world : World :=
  ⟨⟨[(c1cfg.fastaPath, ">sp|P60891|PRPS1_HUMAN\nMPNIKIFSGSSH\n"),
     (c1cfg.pmPath,
      "precursor_prediction_ppm\tfragement_prediction_th\n11.4\t0.02\n")],
    [c1cfg.dsPath]⟩, []⟩

/-- Witness for `c1_rerun_performs_no_invocations` at a concrete dataset and
world. -/
theorem c1_rerun_performs_no_invocations_witness :
    (c1world.fs.isdir c1cfg.dsPath = true ∧
      c1world.fs.isfile c1cfg.fastaPath = true ∧
      c1world.fs.isfile c1cfg.pmPath = true) ∧
    ∃ ds : XLDataset, XLDataset.init c1cfg c1world = (c1world, .ok ds) ∧
      (ds.runParamMedic c1world).1 = c1world :=
  ⟨⟨by decide, by decide, by decide⟩,
   c1_rerun_performs_no_invocations c1cfg c1world (by decide) (by decide) (by decide)⟩

-- C10 -------------------------------------------------------------------------

/-- Helper: `_download_fasta` fails on every input, leaving the world as it
found it. -/
theorem downloadFasta_fails (fa : FastaArg) (ft p ff : String) (w : World) :
    ∃ e, XLDataset.downloadFasta fa ft p ff w = (w, .error e) := by
  unfold XLDataset.downloadFasta
  split_ifs <;> exact ⟨_, rfl⟩

/-- Helper: creating a directory makes it present. -/
theorem FS.isdir_makedirs_self (fs : FS) (p : String) :
    (fs.makedirs p).isdir p = true := by
  simp [FS.makedirs, FS.isdir]

/-- Helper: creating a directory leaves every file untouched. -/
theorem FS.isfile_makedirs (fs : FS) (p f : String) :
    (fs.makedirs p).isfile f = fs.isfile f := rfl

/-- The error `_download_fasta` raises, by source kind. -/
def downloadFastaError (ft : String) : PyError :=
  if ft = "fasta" then .attributeError "download_from_pride"
  else if ft = "proteins" then .attributeError "download_proteins"
  else if ft = "proteome" then .attributeError "download_proteome"
  else .typeError "make_decoys() missing 1 required positional argument: enzyme"

/-- Helper: `_download_fasta` fails on every input with the error of its
source kind, leaving the world as it found it. -/
theorem downloadFasta_eq (fa : FastaArg) (ft p ff : String) (w : World) :
    XLDataset.downloadFasta fa ft p ff w = (w, .error (downloadFastaError ft)) := by
  unfold XLDataset.downloadFasta downloadFastaError
  split_ifs <;> rfl

/-- Helper: construction ensures the dataset root directory exists on disk,
whatever else happens afterwards — the directory is created (line 146)
before the database check and download can fail. -/
theorem init_ensures_rootdir (cfg : XLDatasetCfg) (w : World) :
    (XLDataset.init cfg w).1.fs.isdir cfg.dsPath = true := by
  unfold XLDataset.init
  by_cases hd : w.fs.isdir cfg.dsPath <;>
    by_cases hf : w.fs.isfile (osJoin cfg.dsPath (cfg.pxid ++ ".fasta")) <;>
    simp [hd, hf, FS.isfile_makedirs, FS.isdir_makedirs_self, downloadFasta_eq,
      World.invoke]

/-- Helper: a successfully constructed dataset carries the partition tag of
its configuration. -/
theorem init_ok_split (cfg : XLDatasetCfg) (w w1 : World) (ds : XLDataset)
    (h : XLDataset.init cfg w = (w1, .ok ds)) : ds.split = cfg.split := by
  unfold XLDataset.init at h
  set w2 := if w.fs.isdir cfg.dsPath then w
    else { w with fs := w.fs.makedirs cfg.dsPath } with hw2
  by_cases hf : w2.fs.isfile (osJoin cfg.dsPath (cfg.pxid ++ ".fasta"))
  · simp only [hf, if_true] at h
    simp only [Prod.mk.injEq, Except.ok.injEq] at h
    rw [← h.2]
  · obtain ⟨e, he⟩ := downloadFasta_fails cfg.fasta cfg.fasta_type cfg.dsPath
      (osJoin cfg.dsPath (cfg.pxid ++ ".fasta")) (w2.invoke (.ppxPXDataset cfg.pxid))
    simp [hf, he] at h

/-- Helper: `add_dataset` returns the world produced by the construction,
whether insertion is accepted or rejected. -/
theorem addDataset_world (t : TrainerDatasets) (cfg : XLDatasetCfg) (w : World) :
    (t.addDataset cfg w).1 = (XLDataset.init cfg w).1 := by
  unfold TrainerDatasets.addDataset
  rcases hinit : XLDataset.init cfg w with ⟨w1, r⟩
  rcases r with e | ds
  · simp
  · simp only
    split_ifs <;> rfl

/-- Claim C10 (confirmed): for every configuration with an unrecognized
partition tag, `add_dataset` never succeeds, yet the root directory of the
dataset exists on disk after the call — the construction side effects
(directory creation, and the FASTA-acquisition attempt when the database is
absent) happen before the tag is inspected — and whenever construction
completes, the unknown-tag ValueError is raised only afterwards, with every
construction side effect retained; rejection at insertion is not atomic with
respect to filesystem state. -/
theorem c10_rejection_after_construction (t : TrainerDatasets)
    (cfg : XLDatasetCfg) (w : World)
    (h1 : cfg.split ≠ "training") (h2 : cfg.split ≠ "validation")
    (h3 : cfg.split ≠ "test") :
    (∃ e, (t.addDataset cfg w).2 = .error e) ∧
    (t.addDataset cfg w).1.fs.isdir cfg.dsPath = true ∧
    (∀ w1 ds, XLDataset.init cfg w = (w1, .ok ds) →
      t.addDataset cfg w =
        (w1, .error (.valueError "Unknown value for split in \x7bdataset.pxid\x7d."))) := by
  have hrej : ∀ w1 ds, XLDataset.init cfg w = (w1, .ok ds) →
      t.addDataset cfg w =
        (w1, .error (.valueError "Unknown value for split in \x7bdataset.pxid\x7d.")) := by
    intro w1 ds hinit
    have hs : ds.split = cfg.split := init_ok_split cfg w w1 ds hinit
    unfold TrainerDatasets.addDataset
    rw [hinit]
    simp [hs, h1, h2, h3]
  refine ⟨?_, ?_, hrej⟩
  · rcases hinit : XLDataset.init cfg w with ⟨w1, r⟩
    rcases r with e | ds
    · refine ⟨e, ?_⟩
      unfold TrainerDatasets.addDataset
      rw [hinit]
    · exact ⟨_, by rw [hrej w1 ds hinit]⟩
  · rw [addDataset_world]
    exact init_ensures_rootdir cfg w

/-- Witness for `c10_rejection_after_construction` at a concrete
configuration with the unrecognized tag `testing`, over an empty
filesystem. -/
theorem c10_rejection_after_construction_witness :
    (("testing" : String) ≠ "training" ∧ ("testing" : String) ≠ "validation" ∧
      ("testing" : String) ≠ "test") ∧
    ((∃ e, (TrainerDatasets.addDataset ⟨[], [], []⟩
        { pxid := "PXD010481", raw_files := ["Rappsilber_CLMS_PolII_1.RAW"],
          fasta := .str "polII-uniprot.fasta", split := "testing" } emptyWorld).2 =
          .error e) ∧
      (TrainerDatasets.addDataset ⟨[], [], []⟩
        { pxid := "PXD010481", raw_files := ["Rappsilber_CLMS_PolII_1.RAW"],
          fasta := .str "polII-uniprot.fasta", split := "testing" }
          emptyWorld).1.fs.isdir
        ({ pxid := "PXD010481", raw_files := ["Rappsilber_CLMS_PolII_1.RAW"],
           fasta := .str "polII-uniprot.fasta",
           split := "testing" } : XLDatasetCfg).dsPath = true ∧
      (∀ w1 ds, XLDataset.init
          { pxid := "PXD010481", raw_files := ["Rappsilber_CLMS_PolII_1.RAW"],
            fasta := .str "polII-uniprot.fasta", split := "testing" } emptyWorld =
            (w1, .ok ds) →
        TrainerDatasets.addDataset ⟨[], [], []⟩
          { pxid := "PXD010481", raw_files := ["Rappsilber_CLMS_PolII_1.RAW"],
            fasta := .str "polII-uniprot.fasta", split := "testing" } emptyWorld =
          (w1, .error (.valueError "Unknown value for split in \x7bdataset.pxid\x7d.")))) :=
  ⟨⟨by decide, by decide, by decide⟩,
   c10_rejection_after_construction ⟨[], [], []⟩
     { pxid := "PXD010481", raw_files := ["Rappsilber_CLMS_PolII_1.RAW"],
       fasta := .str "polII-uniprot.fasta", split := "testing" } emptyWorld
     (by decide) (by decide) (by decide)⟩

end XenithTrainer
